import Mathlib

/-!
# afstreams: STREAMS log device source driver

A shallow embedding of `modules/afstreams/afstreams.c` (the `ENABLE_SUN_STREAMS`
variant): the transport read `log_transport_streams_read`, the door registrar
`afstreams_init_door`, and the driver lifecycle `afstreams_sd_new`,
`afstreams_sd_set_sundoor`, `afstreams_sd_init`, `afstreams_sd_deinit`,
`afstreams_sd_free`.

Operating-system and library calls are modelled by their results, supplied by
an environment record, and by the events they leave in a trace.  Bytes are
natural numbers (ASCII codes).
-/

namespace AFStreams

/-! ## Machine integers -/

/-- Bit pattern of a `gint` (32-bit two's complement) as a natural number. -/
def gint_bits (x : Int) : Nat := (x % 2 ^ 32).toNat

/-- The `gint` denoted by a 32-bit pattern. -/
def gint_of_bits (n : Nat) : Int :=
  if n % 2 ^ 32 < 2 ^ 31 then ((n % 2 ^ 32 : Nat) : Int) else ((n % 2 ^ 32 : Nat) : Int) - 2 ^ 32

/-- C expression `a & b` on two `gint` operands. -/
def gint_and (a b : Int) : Int := gint_of_bits (gint_bits a &&& gint_bits b)

/-- Conversion of a `gint` to `gsize` (64-bit unsigned), as the usual arithmetic
conversions do when a `gint` meets a `gsize`. -/
def gsize_of_gint (x : Int) : Nat := (x % 2 ^ 64).toNat

/-- Conversion of a `gsize` to the `gssize` return type. -/
def gssize_of_gsize (n : Nat) : Int :=
  if n % 2 ^ 64 < 2 ^ 63 then ((n % 2 ^ 64 : Nat) : Int) else ((n % 2 ^ 64 : Nat) : Int) - 2 ^ 64

/-- The glib macro `MIN(a, b)`, that is `((a) < (b)) ? (a) : (b)`, at the operand
types of `MIN(len, buflen)`: `len` is a `gint`, `buflen` a `gsize`, so the
comparison and the result are in `gsize`. -/
def MIN (len : Int) (buflen : Nat) : Nat :=
  if gsize_of_gint len < buflen then gsize_of_gint len else buflen

/-- Flag `MORECTL` of `getmsg`, from the system header `stropts.h`. -/
def MORECTL : Int := 1

/-- Flag `MOREDATA` of `getmsg`, from the system header `stropts.h`. -/
def MOREDATA : Int := 2

/-! ## Formatting: `g_snprintf(buf, buflen, "<%d>%.*s", pri, len, data)` -/

/-- Decimal digits of `n`, most significant first, as ASCII codes; `fuel` bounds
the number of digits. -/
def decimal_fuel : Nat → Nat → List Nat
  | 0, _ => []
  | fuel + 1, n =>
    if n < 10 then [48 + n] else decimal_fuel fuel (n / 10) ++ [48 + n % 10]

/-- Decimal representation of a natural number as ASCII codes. -/
def decimal (n : Nat) : List Nat := decimal_fuel (n + 1) n

/-- Expansion of the conversion `%d` for an `int` argument. -/
def fmt_d (i : Int) : List Nat :=
  if i < 0 then 45 :: decimal i.natAbs else decimal i.toNat

/-- Expansion of the conversion `%.*s` with the `int` precision `prec` over the
bytes `s` found at the string argument: at most `prec` bytes, stopping before
the first NUL byte; a negative precision counts as no precision, so the
bytes up to the first NUL byte are taken. -/
def fmt_prec_s (prec : Int) (s : List Nat) : List Nat :=
  if prec < 0 then s.takeWhile (fun c => c != 0)
  else (s.take prec.toNat).takeWhile (fun c => c != 0)

/-- Expansion of the format `"<%d>%.*s"` at `lc.pri`, `data.len`, `data.buf`. -/
def format_line (pri : Int) (data_len : Int) (data_buf : List Nat) : List Nat :=
  60 :: fmt_d pri ++ 62 :: fmt_prec_s data_len data_buf

/-- The call `g_snprintf(buf, n, fmt, ...)` where `s` is the expansion of the
format: at most `n - 1` bytes of `s` are stored, followed by a NUL byte; nothing
is stored when `n = 0`.  The result is the new buffer and the returned `gint`,
the length of the whole expansion. -/
def g_snprintf (buf : List Nat) (n : Nat) (s : List Nat) : List Nat × Int :=
  if n = 0 then (buf, gint_of_bits s.length)
  else
    let k := min s.length (n - 1)
    (s.take k ++ 0 :: buf.drop (k + 1), gint_of_bits s.length)

/-- Value of a list of ASCII digits read as a decimal numeral. -/
def digits_value (ds : List Nat) : Nat :=
  ds.foldl (fun v c => 10 * v + (c - 48)) 0

/-! ## Transport adapter -/

/-- What one call of `getmsg(fd, &ctl, &data, &flags)` leaves behind: its return
value, the value found in `lc.pri`, the value of `data.len` (the length of
the data part, or -1 when the message has no data part), and the bytes found
from the start of the scratch area `tmpbuf` on: the data part comes first
when there is one, then whatever the uninitialised array and the memory
behind it hold. -/
structure GetmsgReply where
  res : Int
  pri : Int
  data_len : Int
  tmpbuf : List Nat

/-- The data part of a reply: the first `data.len` bytes of the scratch area,
empty when the message has no data part. -/
def GetmsgReply.payload (r : GetmsgReply) : List Nat :=
  r.tmpbuf.take r.data_len.toNat

/-- Observable actions of the transport read; `data_maxlen` is the `int` field
`data.maxlen`, assigned from `buflen`. -/
inductive ReadEvent
  | getmsg (fd : Int) (data_maxlen : Int)
  | msg_error (text : String) (res : Int)
  deriving DecidableEq, Repr

/-- Result of `log_transport_streams_read`: the returned `gssize`, the caller's
buffer afterwards, and the actions performed. -/
structure ReadResult where
  ret : Int
  buf : List Nat
  events : List ReadEvent

/-- Whether an event is a `getmsg` call. -/
def ReadEvent.is_getmsg : ReadEvent → Bool
  | .getmsg _ _ => true
  | _ => false

/-- Whether an event is a diagnostic. -/
def ReadEvent.is_msg_error : ReadEvent → Bool
  | .msg_error _ _ => true
  | _ => false

/-- The function `log_transport_streams_read(self, buf, buflen, sa)`.  `getmsg k` is
the reply of the device to the `k`-th receive issued by this call; `buf` is
the content of the caller's buffer on entry. -/
def log_transport_streams_read (fd : Int) (getmsg : Nat → GetmsgReply)
    (buf : List Nat) (buflen : Nat) : ReadResult :=
  let r := getmsg 0
  let ev := [ReadEvent.getmsg fd (gint_of_bits buflen)]
  if r.res = -1 then
    { ret := -1, buf := buf, events := ev }
  else if gint_and r.res (MORECTL + MOREDATA) = 0 then
    let out := g_snprintf buf buflen (format_line r.pri r.data_len r.tmpbuf)
    { ret := gssize_of_gsize (MIN out.2 buflen), buf := out.1, events := ev }
  else
    { ret := 0, buf := buf,
      events := ev ++ [ReadEvent.msg_error
        "Insufficient buffer space for retrieving STREAMS log message" r.res] }

/-- ASCII codes of a string literal. -/
def ascii (s : String) : List Nat := s.toList.map Char.toNat

/-! ## Driver data model -/

/-- The fields of `LogReaderOptions` this file touches: the message size copied
into the protocol options, and the two parse flags set at construction. -/
structure LogReaderOptions where
  msg_size : Int
  lp_local : Bool
  lp_expect_hostname : Bool
  deriving DecidableEq, Repr

/-- A `LogProto` instance, identified by its address. -/
structure LogProto where
  addr : Nat
  deriving DecidableEq, Repr

/-- A `LogProtoFactory`, identified by its address. -/
structure LogProtoFactory where
  addr : Nat
  deriving DecidableEq, Repr

/-- The reader returned by `log_reader_new(proto)`. -/
structure LogReader where
  proto : LogProto
  deriving DecidableEq, Repr

/-- The record `AFStreamsSourceDriver`.  Pointer fields are options, `none` being
`NULL`. -/
structure AFStreamsSourceDriver where
  dev_filename : Option String
  door_filename : Option String
  door_fd : Int
  reader : Option LogReader
  reader_options : LogReaderOptions
  proto_options_size : Int
  proto_factory : Option LogProtoFactory
  deriving DecidableEq, Repr

/-- Calls made by the driver, in the order they are issued. -/
inductive Event
  | msg_error (text : String)
  | log_src_driver_init_method
  | log_src_driver_deinit_method
  | log_src_driver_free
  | log_reader_options_init
  | log_reader_options_destroy
  | open_dev (path : String) (fd : Int)
  | g_fd_set_cloexec (fd : Int)
  | g_fd_set_nonblock (fd : Int)
  | ioctl_conslog (fd : Int)
  | close (fd : Int)
  | log_proto_get_factory
  | log_transport_streams_new (fd : Int)
  | factory_create
  | log_reader_new
  | log_reader_set_options
  | log_pipe_append
  | register_application_hook
  | log_pipe_init
  | log_pipe_deinit
  | log_pipe_unref
  | stat (path : String)
  | creat (path : String) (fd : Int)
  | fdetach (path : String)
  | door_create (fd : Int)
  | fattach (fd : Int) (path : String)
  | door_revoke (fd : Int)
  | g_string_free (s : String)
  | run_post_daemonized
  deriving DecidableEq, Repr

/-- Result of a driver operation: return value, driver afterwards, calls made. -/
structure Outcome (α : Type) where
  ret : α
  self : AFStreamsSourceDriver
  trace : List Event

/-- The function `afstreams_sd_new(filename)`: `g_new0` zero-fills the record, then
the device name and the reader option defaults are set.  `defaults` is what
`log_reader_options_defaults` stores. -/
def afstreams_sd_new (defaults : LogReaderOptions) (filename : String) :
    AFStreamsSourceDriver :=
  { dev_filename := some filename
    door_filename := none
    door_fd := 0
    reader := none
    reader_options := { defaults with lp_local := true, lp_expect_hostname := false }
    proto_options_size := 0
    proto_factory := none }

/-- The function `afstreams_sd_set_sundoor(s, filename)`. -/
def afstreams_sd_set_sundoor (self : AFStreamsSourceDriver) (filename : String) :
    AFStreamsSourceDriver :=
  { self with door_filename := some filename }

/-- Results of the calls made by `afstreams_init_door`. -/
structure DoorEnv where
  stat_res : Int
  creat_fd : Int
  door_create_fd : Int
  fattach_res : Int
  deriving DecidableEq, Repr

/-- The function `afstreams_init_door(hook_type, user_data)`. -/
def afstreams_init_door (env : DoorEnv) (self : AFStreamsSourceDriver) : Outcome Unit :=
  let path := self.door_filename.getD ""
  let t0 : List Event :=
    if env.stat_res = -1 then [.stat path, .creat path env.creat_fd] else [.stat path]
  if env.stat_res = -1 ∧ env.creat_fd = -1 then
    { ret := (), self := self,
      trace := t0 ++ [.msg_error "Error creating syslog door file", .close env.creat_fd] }
  else
    let self1 := { self with door_fd := env.door_create_fd }
    let t1 := t0 ++ [.fdetach path, .door_create env.door_create_fd]
    if self1.door_fd = -1 then
      { ret := (), self := self1, trace := t1 ++ [.msg_error "Error creating syslog door"] }
    else
      let t2 := t1 ++ [.g_fd_set_cloexec self1.door_fd, .fattach self1.door_fd path]
      if env.fattach_res = -1 then
        { ret := (), self := { self1 with door_fd := -1 },
          trace := t2 ++ [.msg_error "Error attaching syslog door", .close self1.door_fd] }
      else
        { ret := (), self := self1, trace := t2 }

/-- Results of the calls made by `afstreams_sd_init`.  `proto_uninit` is the
indeterminate content of the local variable `proto`, which is declared
without an initializer. -/
structure InitEnv where
  base_init : Bool
  options_init : LogReaderOptions → LogReaderOptions
  open_fd : Int
  ioctl_res : Int
  get_factory : Option LogProtoFactory
  create : Option LogProto
  proto_uninit : Option LogProto
  pipe_init : Bool

/-- The function `afstreams_sd_init(s)`. -/
def afstreams_sd_init (env : InitEnv) (self : AFStreamsSourceDriver) : Outcome Bool :=
  if !env.base_init then
    { ret := false, self := self, trace := [.log_src_driver_init_method] }
  else
    let self1 := { self with reader_options := env.options_init self.reader_options }
    let path := self1.dev_filename.getD ""
    let fd := env.open_fd
    let t0 : List Event :=
      [.log_src_driver_init_method, .log_reader_options_init, .open_dev path fd]
    if fd ≠ -1 then
      let t1 := t0 ++ [.g_fd_set_cloexec fd, .ioctl_conslog fd]
      if env.ioctl_res < 0 then
        { ret := false, self := self1,
          trace := t1 ++ [.msg_error "Error in ioctl(I_STR, I_CONSLOG)", .close fd] }
      else
        let self2 := { self1 with proto_options_size := self1.reader_options.msg_size }
        let lookup := self2.proto_factory.isNone
        let self3 := if lookup then { self2 with proto_factory := env.get_factory } else self2
        let t2 := t1 ++ [.g_fd_set_nonblock fd] ++
          (if lookup then [Event.log_proto_get_factory] else [])
        let created := self3.proto_factory.isSome
        let proto := if created then env.create else env.proto_uninit
        let t3 := t2 ++
          (if created then [Event.log_transport_streams_new fd, Event.factory_create] else [])
        match proto with
        | none => { ret := false, self := self3, trace := t3 ++ [.close fd] }
        | some p =>
          let self4 := { self3 with reader := some { proto := p } }
          let t4 := t3 ++ [.log_reader_new, .log_reader_set_options, .log_pipe_append] ++
            (if self4.door_filename.isSome then [Event.register_application_hook] else [])
          if !env.pipe_init then
            { ret := false, self := { self4 with reader := none },
              trace := t4 ++ [.log_pipe_init,
                .msg_error "Error initializing log_reader, closing fd",
                .log_pipe_unref, .close fd] }
          else
            { ret := true, self := self4, trace := t4 ++ [.log_pipe_init] }
    else
      { ret := false, self := self1,
        trace := t0 ++ [.msg_error "Error opening syslog device"] }

/-- The function `afstreams_sd_deinit(s)`; `base_deinit` is the result of
`log_src_driver_deinit_method`. -/
def afstreams_sd_deinit (base_deinit : Bool) (self : AFStreamsSourceDriver) :
    Outcome Bool :=
  let self1 := if self.reader.isSome then { self with reader := none } else self
  let t1 : List Event :=
    if self.reader.isSome then [.log_pipe_deinit, .log_pipe_unref] else []
  let t2 : List Event :=
    if self1.door_fd ≠ -1 then [.door_revoke self1.door_fd, .close self1.door_fd] else []
  { ret := base_deinit, self := self1,
    trace := t1 ++ t2 ++ [.log_src_driver_deinit_method] }

/-- The function `afstreams_sd_free(s)`: the calls it makes. -/
def afstreams_sd_free (self : AFStreamsSourceDriver) : List Event :=
  [Event.log_reader_options_destroy] ++
  (match self.dev_filename with
    | some f => [Event.g_string_free f]
    | none => []) ++
  (match self.door_filename with
    | some f => [Event.g_string_free f]
    | none => []) ++
  (if self.reader.isSome then [Event.log_pipe_unref] else []) ++
  [Event.log_src_driver_free]

/-- Whether a call is a `register_application_hook`. -/
def Event.is_register_hook : Event → Bool
  | .register_application_hook => true
  | _ => false

/-! ## Application hook registry and the lifecycle step relation -/

/-- The driver together with the process-wide hook registry. -/
structure System where
  drv : AFStreamsSourceDriver
  pending : Nat
  trace : List Event

/-- Modelled from the spec: `register_application_hook` and the hook registry
(`apphook.c` is not part of the sources at hand).  A registered callback is
kept until the post-daemonization point is reached; it then runs once and is
dropped.  Every entry registered by this driver is `afstreams_init_door`
bound to the driver, so the registry is the number of pending entries. -/
def register_hooks (pending : Nat) (trace : List Event) : Nat :=
  pending + trace.countP Event.is_register_hook

/-- Modelled from the spec: firing the post-daemonization hook point runs each
pending callback once, in turn; `envs i` gives the results of the calls made
by the `i`-th of them. -/
def run_hooks : Nat → (Nat → DoorEnv) → AFStreamsSourceDriver → Outcome Unit
  | 0, _, d => { ret := (), self := d, trace := [] }
  | n + 1, envs, d =>
    let o := afstreams_init_door (envs 0) d
    let rest := run_hooks n (fun i => envs (i + 1)) o.self
    { ret := (), self := rest.self, trace := o.trace ++ rest.trace }

/-- Labels of the step relation: the framework calls `init` or `deinit`, or the
process reaches the post-daemonization point. -/
inductive Step
  | init (env : InitEnv)
  | hook_fire (envs : Nat → DoorEnv)
  | deinit (base_deinit : Bool)

/-- One step of the lifecycle. -/
def step (s : System) : Step → System
  | .init env =>
    let o := afstreams_sd_init env s.drv
    { drv := o.self, pending := register_hooks s.pending o.trace,
      trace := s.trace ++ o.trace }
  | .hook_fire envs =>
    let o := run_hooks s.pending envs s.drv
    { drv := o.self, pending := 0,
      trace := s.trace ++ Event.run_post_daemonized :: o.trace }
  | .deinit b =>
    let o := afstreams_sd_deinit b s.drv
    { drv := o.self, pending := s.pending, trace := s.trace ++ o.trace }

/-- A run of the lifecycle. -/
def run (s : System) (steps : List Step) : System := steps.foldl step s

/-- Whether a call creates or attaches the door. -/
def Event.is_door_setup : Event → Bool
  | .door_create _ => true
  | .fattach _ _ => true
  | _ => false

/-- Whether a call is a diagnostic. -/
def Event.is_msg_error : Event → Bool
  | .msg_error _ => true
  | _ => false

/-- Whether a call is the first call of the door registrar. -/
def Event.is_stat : Event → Bool
  | .stat _ => true
  | _ => false

/-- The system right after construction and configuration: nothing registered,
nothing called yet. -/
def System.start (d : AFStreamsSourceDriver) : System :=
  { drv := d, pending := 0, trace := [] }

/-- Number of `init` steps in a run. -/
def count_init : List Step → Nat
  | [] => 0
  | Step.init _ :: rest => count_init rest + 1
  | _ :: rest => count_init rest

/-- Whether a call is the `open` of the device. -/
def Event.is_open : Event → Bool
  | .open_dev _ _ => true
  | _ => false

/-- Whether a call is an `fdetach`. -/
def Event.is_fdetach : Event → Bool
  | .fdetach _ => true
  | _ => false

/-- Whether a call is a `close`. -/
def Event.is_close : Event → Bool
  | .close _ => true
  | _ => false

/-- Before the post-daemonization point is reached, no call creates or attaches
the door. -/
def door_after_hook (t : List Event) : Prop :=
  ∀ e ∈ t.takeWhile (fun e => e != Event.run_post_daemonized), e.is_door_setup = false

/-- Bookkeeping invariant of a run: pending registrations and registrar runs
together never exceed the number of `init` steps, occur only for a driver with
a door path, and the door path does not change. -/
def hook_budget (door : Option String) (n : Nat) (s : System) : Prop :=
  s.drv.door_filename = door ∧
  s.pending + s.trace.countP Event.is_stat ≤ n ∧
  (0 < s.pending + s.trace.countP Event.is_stat → door.isSome = true)

/-- Sample reader option defaults. -/
def sample_defaults : LogReaderOptions :=
  { msg_size := 8192, lp_local := false, lp_expect_hostname := true }

/-! ## Arithmetic of the machine integers -/

theorem gint_of_bits_small (n : Nat) (h : n < 2 ^ 31) : gint_of_bits n = (n : Int) := by
  have h1 : n % 2 ^ 32 = n := Nat.mod_eq_of_lt (by omega)
  unfold gint_of_bits
  rw [h1, if_pos h]

theorem gint_and_eq_zero_iff (r : Int) (k : Nat) (hk : k < 2 ^ 31) :
    gint_and r (k : Int) = 0 ↔ gint_bits r &&& k = 0 := by
  have hb : gint_bits (k : Int) = k := by
    unfold gint_bits
    have : ((k : Int) % 2 ^ 32) = ((k % 2 ^ 32 : Nat) : Int) := by norm_cast
    rw [this, Int.toNat_ofNat]
    exact Nat.mod_eq_of_lt (by omega)
  have hle : gint_bits r &&& k ≤ k := Nat.and_le_right
  unfold gint_and
  rw [hb, gint_of_bits_small _ (by omega)]
  exact Int.natCast_eq_zero

theorem complete_iff_no_more_bit (r : Int) :
    gint_and r (MORECTL + MOREDATA) = 0 ↔
      (gint_and r MORECTL = 0 ∧ gint_and r MOREDATA = 0) := by
  have h3 : gint_and r (MORECTL + MOREDATA) = 0 ↔ gint_bits r &&& 3 = 0 :=
    gint_and_eq_zero_iff r 3 (by norm_num)
  have h1 : gint_and r MORECTL = 0 ↔ gint_bits r &&& 1 = 0 :=
    gint_and_eq_zero_iff r 1 (by norm_num)
  have h2 : gint_and r MOREDATA = 0 ↔ gint_bits r &&& 2 = 0 :=
    gint_and_eq_zero_iff r 2 (by norm_num)
  rw [h3, h1, h2]
  constructor
  · intro h
    have e1 : gint_bits r &&& 1 = (gint_bits r &&& 3) &&& 1 := by
      rw [Nat.and_assoc]; rfl
    have e2 : gint_bits r &&& 2 = (gint_bits r &&& 3) &&& 2 := by
      rw [Nat.and_assoc]; rfl
    rw [e1, e2, h]
    exact ⟨by simp, by simp⟩
  · rintro ⟨a, b⟩
    have e : gint_bits r &&& 3 = (gint_bits r &&& 1) ||| (gint_bits r &&& 2) := by
      rw [← Nat.and_or_distrib_left]; rfl
    rw [e, a, b]; rfl

theorem MIN_of_nonneg (l buflen : Nat) (h : l < 2 ^ 31) :
    MIN (gint_of_bits l) buflen = min l buflen := by
  have hg : gsize_of_gint (gint_of_bits l) = l := by
    rw [gint_of_bits_small l h]
    unfold gsize_of_gint
    have : ((l : Int) % 2 ^ 64) = ((l % 2 ^ 64 : Nat) : Int) := by norm_cast
    rw [this, Int.toNat_ofNat]
    exact Nat.mod_eq_of_lt (by omega)
  unfold MIN
  rw [hg]
  split_ifs with c
  · exact (Nat.min_eq_left (Nat.le_of_lt c)).symm
  · exact (Nat.min_eq_right (Nat.le_of_not_lt c)).symm

theorem MIN_le (len : Int) (buflen : Nat) : MIN len buflen ≤ buflen := by
  unfold MIN
  split_ifs with c
  · exact Nat.le_of_lt c
  · exact Nat.le_refl _

theorem gssize_of_gsize_small (n : Nat) (h : n < 2 ^ 63) : gssize_of_gsize n = (n : Int) := by
  have h1 : n % 2 ^ 64 = n := Nat.mod_eq_of_lt (by omega)
  unfold gssize_of_gsize
  rw [h1, if_pos h]

/-! ## Decimal conversion -/

theorem digits_value_append (l : List Nat) (c : Nat) :
    digits_value (l ++ [c]) = 10 * digits_value l + (c - 48) := by
  simp [digits_value, List.foldl_append]

theorem decimal_fuel_spec : ∀ (fuel n : Nat), n < fuel →
    digits_value (decimal_fuel fuel n) = n ∧
    (∀ c ∈ decimal_fuel fuel n, 48 ≤ c ∧ c ≤ 57) ∧
    decimal_fuel fuel n ≠ [] ∧
    ((decimal_fuel fuel n).head? = some 48 → n = 0) := by
  intro fuel
  induction fuel with
  | zero => intro n h; omega
  | succ f ih =>
    intro n h
    by_cases hn : n < 10
    · simp only [decimal_fuel, if_pos hn]
      refine ⟨?_, ?_, ?_, ?_⟩
      · simp [digits_value]
      · intro c hc
        simp at hc
        omega
      · simp
      · intro hh
        simp at hh
        exact hh
    · simp only [decimal_fuel, if_neg hn]
      have hlt : n / 10 < f := by omega
      obtain ⟨hv, hd, hne, hz⟩ := ih (n / 10) hlt
      refine ⟨?_, ?_, ?_, ?_⟩
      · rw [digits_value_append, hv]
        omega
      · intro c hc
        rw [List.mem_append] at hc
        rcases hc with hc | hc
        · exact hd c hc
        · simp at hc
          omega
      · simp
      · intro hh
        rw [List.head?_append_of_ne_nil _ hne] at hh
        have := hz hh
        omega

theorem decimal_spec (n : Nat) :
    digits_value (decimal n) = n ∧
    (∀ c ∈ decimal n, 48 ≤ c ∧ c ≤ 57) ∧
    decimal n ≠ [] ∧
    ((decimal n).head? = some 48 → n = 0) :=
  decimal_fuel_spec (n + 1) n (Nat.lt_succ_self n)

/-! ## Formatting lemmas -/

theorem fmt_d_of_nat (p : Nat) : fmt_d (p : Int) = decimal p := by
  unfold fmt_d
  rw [if_neg (by omega), Int.toNat_ofNat]

theorem fmt_prec_s_of_nonneg (prec : Int) (s : List Nat) (h : 0 ≤ prec) :
    fmt_prec_s prec s = (s.take prec.toNat).takeWhile (fun c => c != 0) := by
  unfold fmt_prec_s
  rw [if_neg (by omega)]

theorem fmt_prec_s_of_no_nul (d s : List Nat) (hs : s.take d.length = d)
    (h : ∀ c ∈ d, c ≠ 0) :
    fmt_prec_s (d.length : Int) s = d := by
  rw [fmt_prec_s_of_nonneg _ _ (Int.ofNat_nonneg _), Int.toNat_ofNat, hs,
    List.takeWhile_eq_self_iff]
  intro c hc
  simpa using h c hc

theorem g_snprintf_fits (buf s : List Nat) (n : Nat) (h : s.length < n) :
    g_snprintf buf n s = (s ++ 0 :: buf.drop (s.length + 1), gint_of_bits s.length) := by
  unfold g_snprintf
  rw [if_neg (by omega)]
  have hk : min s.length (n - 1) = s.length := Nat.min_eq_left (by omega)
  simp only [hk, List.take_length]

theorem read_complete (fd : Int) (getmsg : Nat → GetmsgReply) (buf : List Nat) (buflen : Nat)
    (hctl : gint_and (getmsg 0).res MORECTL = 0)
    (hmore : gint_and (getmsg 0).res MOREDATA = 0) :
    log_transport_streams_read fd getmsg buf buflen =
      { ret := gssize_of_gsize
          (MIN (g_snprintf buf buflen (format_line (getmsg 0).pri (getmsg 0).data_len (getmsg 0).tmpbuf)).2 buflen)
        buf := (g_snprintf buf buflen (format_line (getmsg 0).pri (getmsg 0).data_len (getmsg 0).tmpbuf)).1
        events := [ReadEvent.getmsg fd (gint_of_bits buflen)] } := by
  have hc : gint_and (getmsg 0).res (MORECTL + MOREDATA) = 0 :=
    (complete_iff_no_more_bit _).2 ⟨hctl, hmore⟩
  have hne : (getmsg 0).res ≠ -1 := by
    intro h
    rw [h] at hc
    revert hc
    decide
  unfold log_transport_streams_read
  simp only [if_neg hne, if_pos hc]

theorem g_snprintf_ret (buf s : List Nat) (n : Nat) :
    (g_snprintf buf n s).2 = gint_of_bits s.length := by
  unfold g_snprintf
  split_ifs <;> rfl

/-! ## Claims on the transport adapter -/

/-- C1 (as amended): for a priority `p ≥ 0` (in particular `0 ≤ p ≤ 191`), a payload
`d` without NUL byte, and a capacity strictly greater than the length of
`"<" + decimal(p) + ">" + d` (that length being representable as a `gint`), a
complete receive leaves that line at the start of the caller's buffer,
followed by a NUL byte, and returns its length; `decimal(p)` consists of ASCII
digits, has value `p` and no leading zero. -/
theorem streams_read_formats_line (fd : Int) (getmsg : Nat → GetmsgReply)
    (buf : List Nat) (buflen p : Nat) (d : List Nat)
    (hpri : (getmsg 0).pri = (p : Int))
    (hlen : (getmsg 0).data_len = (d.length : Int))
    (hdata : (getmsg 0).payload = d)
    (hctl : gint_and (getmsg 0).res MORECTL = 0)
    (hmore : gint_and (getmsg 0).res MOREDATA = 0)
    (hnul : ∀ c ∈ d, c ≠ 0)
    (hfit : (60 :: decimal p ++ 62 :: d).length < buflen)
    (hint : (60 :: decimal p ++ 62 :: d).length < 2 ^ 31) :
    (log_transport_streams_read fd getmsg buf buflen).buf =
        (60 :: decimal p ++ 62 :: d) ++
          0 :: buf.drop ((60 :: decimal p ++ 62 :: d).length + 1) ∧
    (log_transport_streams_read fd getmsg buf buflen).buf.take
        (60 :: decimal p ++ 62 :: d).length = 60 :: decimal p ++ 62 :: d ∧
    (log_transport_streams_read fd getmsg buf buflen).ret =
        ((60 :: decimal p ++ 62 :: d).length : Int) ∧
    digits_value (decimal p) = p ∧
    (∀ c ∈ decimal p, 48 ≤ c ∧ c ≤ 57) ∧
    ((decimal p).head? = some 48 → p = 0) := by
  have htake : (getmsg 0).tmpbuf.take d.length = d := by
    have h := hdata
    unfold GetmsgReply.payload at h
    rw [hlen, Int.toNat_ofNat] at h
    exact h
  have hline : format_line (getmsg 0).pri (getmsg 0).data_len (getmsg 0).tmpbuf =
      60 :: decimal p ++ 62 :: d := by
    unfold format_line
    rw [hpri, hlen, fmt_d_of_nat, fmt_prec_s_of_no_nul d _ htake hnul]
  rw [read_complete fd getmsg buf buflen hctl hmore, hline,
    g_snprintf_fits buf _ buflen hfit]
  obtain ⟨hv, hdig, _, hz⟩ := decimal_spec p
  refine ⟨rfl, ?_, ?_, hv, hdig, hz⟩
  · exact List.take_left' rfl
  · show gssize_of_gsize (MIN (gint_of_bits _) buflen) = _
    rw [MIN_of_nonneg _ _ hint, Nat.min_eq_left (Nat.le_of_lt hfit)]
    exact gssize_of_gsize_small _ (by omega)

/-- Witness for C1 (as amended): priority 134 and payload "test message" into a
buffer of capacity 64 give "<134>test message", 17 bytes. -/
theorem streams_read_formats_line_witness :
    (log_transport_streams_read 3 (fun _ => ⟨0, 134, 12, ascii "test message"⟩)
        (List.replicate 64 0) 64).buf.take 17 = ascii "<134>test message" ∧
    (log_transport_streams_read 3 (fun _ => ⟨0, 134, 12, ascii "test message"⟩)
        (List.replicate 64 0) 64).ret = 17 :=
  have h := streams_read_formats_line 3 (fun _ => ⟨0, 134, 12, ascii "test message"⟩)
    (List.replicate 64 0) 64 134 (ascii "test message") rfl rfl rfl (by decide) (by decide)
    (by decide) (by decide) (by decide)
  ⟨h.2.1, h.2.2.1⟩

/-- C1 as stated fails at two inputs that satisfy its premises.  With priority 0,
payload "a" and capacity 4 (payload length 1 = 4 - len("<0>")), the buffer ends
up as "<0>" followed by NUL with count 4, not "<0>a".  With priority 0, the
payload "a", NUL, "b" and capacity 64, the count is 4 and the buffer starts
with "<0>a" followed by NUL, not the 6 bytes of "<0>" + payload. -/
theorem streams_read_formats_line_counterexample :
    (gint_and 0 MORECTL = 0 ∧ gint_and 0 MOREDATA = 0 ∧
      (((ascii "a").length : Int) ≤ 4 - ((ascii "<0>").length : Int)) ∧
      (log_transport_streams_read 3 (fun _ => ⟨0, 0, 1, ascii "a"⟩) (ascii "xxxx") 4).ret = 4 ∧
      (log_transport_streams_read 3 (fun _ => ⟨0, 0, 1, ascii "a"⟩) (ascii "xxxx") 4).buf =
        [60, 48, 62, 0] ∧
      (log_transport_streams_read 3 (fun _ => ⟨0, 0, 1, ascii "a"⟩) (ascii "xxxx") 4).buf.take 4
        ≠ ascii "<0>a") ∧
    (gint_and 0 MORECTL = 0 ∧ gint_and 0 MOREDATA = 0 ∧
      (([97, 0, 98] : List Nat).length : Int) ≤ 64 - ((ascii "<0>").length : Int) ∧
      (log_transport_streams_read 3 (fun _ => ⟨0, 0, 3, [97, 0, 98]⟩)
        (List.replicate 64 120) 64).ret = 4 ∧
      (log_transport_streams_read 3 (fun _ => ⟨0, 0, 3, [97, 0, 98]⟩)
        (List.replicate 64 120) 64).ret ≠ ((ascii "<0>" ++ [97, 0, 98]).length : Int) ∧
      (log_transport_streams_read 3 (fun _ => ⟨0, 0, 3, [97, 0, 98]⟩)
        (List.replicate 64 120) 64).buf.take 6 = [60, 48, 62, 97, 0, 120]) := by
  decide

/-- C2: when the `getmsg` result is not -1 and has the MORECTL or the MOREDATA bit
set, the read returns 0, emits exactly one diagnostic and leaves the caller's
buffer as it was. -/
theorem streams_read_more_flag_drops (fd : Int) (getmsg : Nat → GetmsgReply)
    (buf : List Nat) (buflen : Nat)
    (hres : (getmsg 0).res ≠ -1)
    (hbit : gint_and (getmsg 0).res MORECTL ≠ 0 ∨ gint_and (getmsg 0).res MOREDATA ≠ 0) :
    (log_transport_streams_read fd getmsg buf buflen).ret = 0 ∧
    (log_transport_streams_read fd getmsg buf buflen).events.countP
        ReadEvent.is_msg_error = 1 ∧
    (log_transport_streams_read fd getmsg buf buflen).buf = buf := by
  have hc : ¬ gint_and (getmsg 0).res (MORECTL + MOREDATA) = 0 := by
    intro h
    have := (complete_iff_no_more_bit _).1 h
    rcases hbit with hb | hb
    · exact hb this.1
    · exact hb this.2
  have hread : log_transport_streams_read fd getmsg buf buflen =
      { ret := 0, buf := buf,
        events := [ReadEvent.getmsg fd (gint_of_bits buflen)] ++ [ReadEvent.msg_error
          "Insufficient buffer space for retrieving STREAMS log message" (getmsg 0).res] } := by
    unfold log_transport_streams_read
    simp only [if_neg hres, if_neg hc]
  rw [hread]
  exact ⟨rfl, rfl, rfl⟩

/-- Witness for C2: a receive flagged MOREDATA into a buffer of four bytes. -/
theorem streams_read_more_flag_drops_witness :
    (log_transport_streams_read 3 (fun _ => ⟨2, 134, 4, ascii "test"⟩) (ascii "xxxx") 4).ret = 0 ∧
    (log_transport_streams_read 3 (fun _ => ⟨2, 134, 4, ascii "test"⟩)
        (ascii "xxxx") 4).events.countP ReadEvent.is_msg_error = 1 ∧
    (log_transport_streams_read 3 (fun _ => ⟨2, 134, 4, ascii "test"⟩) (ascii "xxxx") 4).buf =
        ascii "xxxx" :=
  streams_read_more_flag_drops 3 (fun _ => ⟨2, 134, 4, ascii "test"⟩) (ascii "xxxx") 4
    (by decide) (Or.inr (by decide))

/-- C3: the read returns the failure value -1 exactly when `getmsg` returned -1
(the capacity being at most the largest `gssize`); in that case `getmsg` was
called once, no diagnostic was emitted and the caller's buffer is unchanged. -/
theorem streams_read_hard_failure (fd : Int) (getmsg : Nat → GetmsgReply)
    (buf : List Nat) (buflen : Nat) (hcap : buflen < 2 ^ 63) :
    ((log_transport_streams_read fd getmsg buf buflen).ret = -1 ↔ (getmsg 0).res = -1) ∧
    ((getmsg 0).res = -1 →
      (log_transport_streams_read fd getmsg buf buflen).events.countP
          ReadEvent.is_getmsg = 1 ∧
      (log_transport_streams_read fd getmsg buf buflen).events.countP
          ReadEvent.is_msg_error = 0 ∧
      (log_transport_streams_read fd getmsg buf buflen).buf = buf) := by
  by_cases hres : (getmsg 0).res = -1
  · have hread : log_transport_streams_read fd getmsg buf buflen =
        { ret := -1, buf := buf, events := [ReadEvent.getmsg fd (gint_of_bits buflen)] } := by
      unfold log_transport_streams_read
      simp only [if_pos hres]
    rw [hread]
    exact ⟨⟨fun _ => hres, fun _ => rfl⟩, fun _ => ⟨rfl, rfl, rfl⟩⟩
  · refine ⟨⟨fun h => ?_, fun h => absurd h hres⟩, fun h => absurd h hres⟩
    exfalso
    by_cases hc : gint_and (getmsg 0).res (MORECTL + MOREDATA) = 0
    · obtain ⟨h1, h2⟩ := (complete_iff_no_more_bit _).1 hc
      rw [read_complete fd getmsg buf buflen h1 h2] at h
      have hle := MIN_le
        (g_snprintf buf buflen (format_line (getmsg 0).pri (getmsg 0).data_len (getmsg 0).tmpbuf)).2 buflen
      have hs := gssize_of_gsize_small _ (Nat.lt_of_le_of_lt hle hcap)
      have h' : gssize_of_gsize
          (MIN (g_snprintf buf buflen (format_line (getmsg 0).pri (getmsg 0).data_len (getmsg 0).tmpbuf)).2 buflen)
          = -1 := h
      rw [hs] at h'
      omega
    · have hread : log_transport_streams_read fd getmsg buf buflen =
          { ret := 0, buf := buf,
            events := [ReadEvent.getmsg fd (gint_of_bits buflen)] ++ [ReadEvent.msg_error
              "Insufficient buffer space for retrieving STREAMS log message"
              (getmsg 0).res] } := by
        unfold log_transport_streams_read
        simp only [if_neg hres, if_neg hc]
      rw [hread] at h
      have h0 : (0 : Int) = -1 := h
      omega

/-- Witness for C3: a failed receive into a buffer of four bytes. -/
theorem streams_read_hard_failure_witness :
    ((log_transport_streams_read 3 (fun _ => ⟨-1, 0, 0, []⟩) (ascii "xxxx") 4).ret = -1 ↔
      (-1 : Int) = -1) ∧
    ((-1 : Int) = -1 →
      (log_transport_streams_read 3 (fun _ => ⟨-1, 0, 0, []⟩) (ascii "xxxx") 4).events.countP
          ReadEvent.is_getmsg = 1 ∧
      (log_transport_streams_read 3 (fun _ => ⟨-1, 0, 0, []⟩) (ascii "xxxx") 4).events.countP
          ReadEvent.is_msg_error = 0 ∧
      (log_transport_streams_read 3 (fun _ => ⟨-1, 0, 0, []⟩) (ascii "xxxx") 4).buf =
          ascii "xxxx") :=
  streams_read_hard_failure 3 (fun _ => ⟨-1, 0, 0, []⟩) (ascii "xxxx") 4 (by norm_num)

/-- C4 (as amended): on a complete receive that delivers a data part (`data.len`
is not negative), the returned count is the minimum of the formatted length
and the capacity, hence between 0 and the capacity, for any priority,
payload and capacity.  The formatted length is the length of `"<"`, the
`%d` digits of the priority, `">"` and the payload bytes that precede the
first NUL byte of the payload (the whole payload when it has none); it is
the signed `int` that `g_snprintf` returns, so at most `G_MAXINT`.  The count
is the value of `MIN(len, buflen)` with that `gint` compared in `gsize`. -/
theorem streams_read_count_is_min (fd : Int) (getmsg : Nat → GetmsgReply)
    (buf : List Nat) (buflen : Nat)
    (hctl : gint_and (getmsg 0).res MORECTL = 0)
    (hmore : gint_and (getmsg 0).res MOREDATA = 0)
    (hpart : 0 ≤ (getmsg 0).data_len)
    (hint : (60 :: fmt_d (getmsg 0).pri ++
      62 :: (getmsg 0).payload.takeWhile (fun c => c != 0)).length < 2 ^ 31) :
    (log_transport_streams_read fd getmsg buf buflen).ret =
      ((min (60 :: fmt_d (getmsg 0).pri ++
        62 :: (getmsg 0).payload.takeWhile (fun c => c != 0)).length buflen : Nat) : Int) ∧
    0 ≤ (log_transport_streams_read fd getmsg buf buflen).ret ∧
    (log_transport_streams_read fd getmsg buf buflen).ret ≤ (buflen : Int) ∧
    (log_transport_streams_read fd getmsg buf buflen).ret =
      gssize_of_gsize
        (MIN (gint_of_bits (60 :: fmt_d (getmsg 0).pri ++
          62 :: (getmsg 0).payload.takeWhile (fun c => c != 0)).length) buflen) ∧
    ((∀ c ∈ (getmsg 0).payload, c ≠ 0) →
      (60 :: fmt_d (getmsg 0).pri ++
        62 :: (getmsg 0).payload.takeWhile (fun c => c != 0)).length =
        1 + (fmt_d (getmsg 0).pri).length + 1 + (getmsg 0).payload.length) := by
  have hline : format_line (getmsg 0).pri (getmsg 0).data_len (getmsg 0).tmpbuf =
      60 :: fmt_d (getmsg 0).pri ++
        62 :: (getmsg 0).payload.takeWhile (fun c => c != 0) := by
    unfold format_line GetmsgReply.payload
    rw [fmt_prec_s_of_nonneg _ _ hpart]
  have hret : (log_transport_streams_read fd getmsg buf buflen).ret =
      gssize_of_gsize
        (MIN (gint_of_bits (60 :: fmt_d (getmsg 0).pri ++
          62 :: (getmsg 0).payload.takeWhile (fun c => c != 0)).length) buflen) := by
    rw [read_complete fd getmsg buf buflen hctl hmore, g_snprintf_ret, hline]
  have hmin : (log_transport_streams_read fd getmsg buf buflen).ret =
      ((min (60 :: fmt_d (getmsg 0).pri ++
        62 :: (getmsg 0).payload.takeWhile (fun c => c != 0)).length buflen : Nat) : Int) := by
    rw [hret, MIN_of_nonneg _ _ hint]
    exact gssize_of_gsize_small _
      (Nat.lt_of_le_of_lt (Nat.min_le_left _ _) (by omega))
  refine ⟨hmin, ?_, ?_, hret, ?_⟩
  · rw [hmin]
    exact Int.ofNat_nonneg _
  · rw [hmin]
    exact Int.ofNat_le.2 (Nat.min_le_right _ _)
  · intro hnul
    have hw : (getmsg 0).payload.takeWhile (fun c => c != 0) = (getmsg 0).payload := by
      rw [List.takeWhile_eq_self_iff]
      intro c hc
      simpa using hnul c hc
    rw [hw]
    simp only [List.length_cons, List.length_append]
    omega

/-- Witness for C4 (as amended): priority 134 and the payload "test", NUL,
"message" into a buffer of capacity 8: the formatted length is 9 and the
count is 8. -/
theorem streams_read_count_is_min_witness :
    (log_transport_streams_read 3
        (fun _ => ⟨0, 134, 12, ascii "test" ++ 0 :: ascii "message"⟩)
        (List.replicate 8 0) 8).ret = 8 ∧
    (60 :: fmt_d 134 ++ 62 ::
      (GetmsgReply.payload ⟨0, 134, 12, ascii "test" ++ 0 :: ascii "message"⟩).takeWhile
        (fun c => c != 0)).length = 9 :=
  ⟨(streams_read_count_is_min 3
      (fun _ => ⟨0, 134, 12, ascii "test" ++ 0 :: ascii "message"⟩)
      (List.replicate 8 0) 8 (by decide) (by decide) (by decide) (by decide)).1.trans
      (by decide),
    by decide⟩

/-- C4 as stated fails at two complete receives.  With priority 134, the 12 byte
payload "test", NUL, "message" and capacity 64, the untruncated
"<134>" + payload has 17 bytes, so the claimed count is min(17, 64) = 17, but
the count is 9: `%.*s` stops at the NUL.  With priority 0, no data part
(`data.len` is -1) and capacity 64, the string "<0>" with an absent payload has 3
bytes, so the claimed count is 3, but the negative precision makes `%.*s` print
the scratch area up to its first NUL byte, here 13 bytes, and the count
is 16. -/
theorem streams_read_count_is_min_counterexample :
    (gint_and 0 MORECTL = 0 ∧ gint_and 0 MOREDATA = 0 ∧
      (GetmsgReply.payload ⟨0, 134, 12, ascii "test" ++ 0 :: ascii "message"⟩).length = 12 ∧
      min ((ascii "<134>").length +
        (GetmsgReply.payload ⟨0, 134, 12, ascii "test" ++ 0 :: ascii "message"⟩).length)
        64 = 17 ∧
      (log_transport_streams_read 3
        (fun _ => ⟨0, 134, 12, ascii "test" ++ 0 :: ascii "message"⟩)
        (List.replicate 64 120) 64).ret = 9 ∧
      (log_transport_streams_read 3
        (fun _ => ⟨0, 134, 12, ascii "test" ++ 0 :: ascii "message"⟩)
        (List.replicate 64 120) 64).ret ≠ 17) ∧
    (gint_and 0 MORECTL = 0 ∧ gint_and 0 MOREDATA = 0 ∧
      (GetmsgReply.payload ⟨0, 0, -1, ascii "stale garbage" ++ [0]⟩).length = 0 ∧
      min ((ascii "<0>").length +
        (GetmsgReply.payload ⟨0, 0, -1, ascii "stale garbage" ++ [0]⟩).length) 64 = 3 ∧
      (log_transport_streams_read 3
        (fun _ => ⟨0, 0, -1, ascii "stale garbage" ++ [0]⟩)
        (List.replicate 64 120) 64).ret = 16 ∧
      (log_transport_streams_read 3
        (fun _ => ⟨0, 0, -1, ascii "stale garbage" ++ [0]⟩)
        (List.replicate 64 120) 64).ret ≠ 3) := by
  decide

/-! ## Claims on the door registrar -/

/-- C10: for `afstreams_init_door` entered with `door_fd = -1`: afterwards `door_fd`
is a descriptor (differs from -1) exactly when (`stat` found the path or `creat`
succeeded) and `door_create` succeeded and `fattach` succeeded.  When file
creation fails there is no `fdetach`, `door_create` or `fattach`.  When `fattach`
fails the door descriptor is closed exactly once, nothing else is closed, and
`door_fd` is -1 again.  Each of the three failures emits exactly one
diagnostic, and no field other than `door_fd` ever changes. -/
theorem init_door_outcome (env : DoorEnv) (self : AFStreamsSourceDriver)
    (hunset : self.door_fd = -1) :
    (((afstreams_init_door env self).self.door_fd ≠ -1) ↔
      ((env.stat_res ≠ -1 ∨ env.creat_fd ≠ -1) ∧ env.door_create_fd ≠ -1 ∧
        env.fattach_res ≠ -1)) ∧
    ((env.stat_res = -1 ∧ env.creat_fd = -1) →
      (∀ e ∈ (afstreams_init_door env self).trace,
        e.is_fdetach = false ∧ e.is_door_setup = false) ∧
      (afstreams_init_door env self).trace.countP Event.is_msg_error = 1 ∧
      (afstreams_init_door env self).self = self) ∧
    (((env.stat_res ≠ -1 ∨ env.creat_fd ≠ -1) ∧ env.door_create_fd = -1) →
      (afstreams_init_door env self).trace.countP Event.is_msg_error = 1 ∧
      (afstreams_init_door env self).self = self) ∧
    (((env.stat_res ≠ -1 ∨ env.creat_fd ≠ -1) ∧ env.door_create_fd ≠ -1 ∧
        env.fattach_res = -1) →
      (afstreams_init_door env self).trace.count (Event.close env.door_create_fd) = 1 ∧
      (∀ fd, Event.close fd ∈ (afstreams_init_door env self).trace →
        fd = env.door_create_fd) ∧
      (afstreams_init_door env self).trace.countP Event.is_msg_error = 1 ∧
      (afstreams_init_door env self).self = self) ∧
    (afstreams_init_door env self).self =
      { self with door_fd := (afstreams_init_door env self).self.door_fd } := by
  obtain ⟨st, cr, dc, fa⟩ := env
  obtain ⟨dev, door, dfd, rd, ro, ps, pf⟩ := self
  simp only at hunset
  subst hunset
  by_cases h1 : st = -1 <;> by_cases h2 : cr = -1 <;> by_cases h3 : dc = -1 <;>
    by_cases h4 : fa = -1 <;>
    simp [afstreams_init_door, h1, h2, h3, h4, Event.is_msg_error, Event.is_door_setup,
      Event.is_fdetach, List.count_cons, List.countP_cons]

/-- Witness for C10: the path exists, the door is created as descriptor 7 and
`fattach` fails. -/
theorem init_door_outcome_witness :
    (afstreams_init_door ⟨0, -1, 7, -1⟩
        { afstreams_sd_set_sundoor (afstreams_sd_new sample_defaults "/dev/log")
            "/var/run/syslog_door" with door_fd := -1 }).self.door_fd = -1 ∧
    (afstreams_init_door ⟨0, -1, 7, -1⟩
        { afstreams_sd_set_sundoor (afstreams_sd_new sample_defaults "/dev/log")
            "/var/run/syslog_door" with door_fd := -1 }).trace.count (Event.close 7) = 1 :=
  have h := init_door_outcome ⟨0, -1, 7, -1⟩
    { afstreams_sd_set_sundoor (afstreams_sd_new sample_defaults "/dev/log")
        "/var/run/syslog_door" with door_fd := -1 } rfl
  ⟨by decide, (h.2.2.2.1 ⟨Or.inl (by decide), by decide, rfl⟩).1⟩

/-! ## Claims on the driver lifecycle -/

/-- C7: for a driver without reader (as `afstreams_sd_new` creates it), after
`afstreams_sd_init` the reader is non-null exactly when the function returned
TRUE; after `afstreams_sd_deinit` the reader is null whatever the driver was
and whatever the base deinitializer returned. -/
theorem reader_attached_iff_init_ok (env : InitEnv) (self : AFStreamsSourceDriver)
    (hnew : self.reader = none) (base_deinit : Bool) (d : AFStreamsSourceDriver) :
    (((afstreams_sd_init env self).self.reader ≠ none) ↔
      (afstreams_sd_init env self).ret = true) ∧
    (afstreams_sd_deinit base_deinit d).self.reader = none := by
  constructor
  · obtain ⟨dev, door, dfd, rd, ro, ps, pf⟩ := self
    simp only at hnew
    subst hnew
    obtain ⟨bi, oi, fd, io, gf, cr, un, pi⟩ := env
    cases bi
    · simp [afstreams_sd_init]
    · by_cases h1 : fd = -1
      · simp [afstreams_sd_init, h1]
      · by_cases h2 : io < 0
        · simp [afstreams_sd_init, h1, h2]
        · cases pf <;> cases gf <;> cases cr <;> cases un <;> cases pi <;>
            simp [afstreams_sd_init, h1, h2]
  · unfold afstreams_sd_deinit
    cases h : d.reader <;> simp [h]

/-- Witness for C7: the device cannot be opened, so init returns FALSE and no
reader exists. -/
theorem reader_attached_iff_init_ok_witness :
    (afstreams_sd_init ⟨true, id, -1, 0, none, none, none, true⟩
        (afstreams_sd_new sample_defaults "/dev/log")).ret = false ∧
    (afstreams_sd_init ⟨true, id, -1, 0, none, none, none, true⟩
        (afstreams_sd_new sample_defaults "/dev/log")).self.reader = none :=
  have h := (reader_attached_iff_init_ok ⟨true, id, -1, 0, none, none, none, true⟩
    (afstreams_sd_new sample_defaults "/dev/log") rfl true
    (afstreams_sd_new sample_defaults "/dev/log")).1
  have hret : (afstreams_sd_init ⟨true, id, -1, 0, none, none, none, true⟩
      (afstreams_sd_new sample_defaults "/dev/log")).ret = false := by decide
  ⟨hret, by
    by_contra hne
    have := h.1 hne
    rw [hret] at this
    exact absurd this (by decide)⟩

/-- C5 (evaluation of the code): `afstreams_sd_new` leaves `door_fd` at 0, the
zero fill of `g_new0`, not at -1, although no door path is configured and the
registrar never ran; the door path being unset, `afstreams_sd_deinit` on this
driver calls `door_revoke(0)` and `close(0)`. -/
theorem sd_new_door_fd_is_zero (defaults : LogReaderOptions) (filename : String)
    (base_deinit : Bool) :
    (afstreams_sd_new defaults filename).door_filename = none ∧
    (afstreams_sd_new defaults filename).door_fd = 0 ∧
    (afstreams_sd_new defaults filename).door_fd ≠ -1 ∧
    (afstreams_sd_deinit base_deinit (afstreams_sd_new defaults filename)).trace =
      [Event.door_revoke 0, Event.close 0, Event.log_src_driver_deinit_method] := by
  refine ⟨rfl, rfl, ?_, ?_⟩
  · show (0 : Int) ≠ -1
    omega
  · simp [afstreams_sd_deinit, afstreams_sd_new]

/-- C6 (evaluation of the code): the factory lookup returns NULL and no factory
was assigned before, so `proto` is never assigned.  When the indeterminate
content of `proto` is not NULL, `afstreams_sd_init` does not close the device
descriptor, attaches a reader over that value, registers the hook when a door
path is configured, and returns TRUE.  Only when that content happens to be
NULL does it close the descriptor once and return FALSE. -/
theorem init_null_factory_reads_uninit_proto :
    (afstreams_sd_init ⟨true, id, 5, 0, none, none, some ⟨3735928559⟩, true⟩
        (afstreams_sd_set_sundoor (afstreams_sd_new sample_defaults "/dev/log")
          "/var/run/syslog_door")).ret = true ∧
    (afstreams_sd_init ⟨true, id, 5, 0, none, none, some ⟨3735928559⟩, true⟩
        (afstreams_sd_set_sundoor (afstreams_sd_new sample_defaults "/dev/log")
          "/var/run/syslog_door")).self.reader = some ⟨⟨3735928559⟩⟩ ∧
    (afstreams_sd_init ⟨true, id, 5, 0, none, none, some ⟨3735928559⟩, true⟩
        (afstreams_sd_set_sundoor (afstreams_sd_new sample_defaults "/dev/log")
          "/var/run/syslog_door")).trace.countP Event.is_close = 0 ∧
    (afstreams_sd_init ⟨true, id, 5, 0, none, none, some ⟨3735928559⟩, true⟩
        (afstreams_sd_set_sundoor (afstreams_sd_new sample_defaults "/dev/log")
          "/var/run/syslog_door")).trace.countP Event.is_register_hook = 1 ∧
    (afstreams_sd_init ⟨true, id, 5, 0, none, none, none, true⟩
        (afstreams_sd_set_sundoor (afstreams_sd_new sample_defaults "/dev/log")
          "/var/run/syslog_door")).ret = false ∧
    (afstreams_sd_init ⟨true, id, 5, 0, none, none, none, true⟩
        (afstreams_sd_set_sundoor (afstreams_sd_new sample_defaults "/dev/log")
          "/var/run/syslog_door")).trace.count (Event.close 5) = 1 := by
  decide

/-- C9 (evaluation of the code): `open` returns descriptor 0 and the ioctl fails, so
`afstreams_sd_init` closes descriptor 0 and returns FALSE; `door_fd` is still 0
from construction, so `afstreams_sd_deinit` calls `door_revoke(0)` and closes
descriptor 0 a second time, with a single `open` in the whole run.  The reader
reference is not released at all on this run. -/
theorem failed_init_teardown_closes_twice :
    (afstreams_sd_init ⟨true, id, 0, -1, none, none, none, true⟩
        (afstreams_sd_new sample_defaults "/dev/log")).ret = false ∧
    (afstreams_sd_init ⟨true, id, 0, -1, none, none, none, true⟩
        (afstreams_sd_new sample_defaults "/dev/log")).trace ++
      (afstreams_sd_deinit true
        (afstreams_sd_init ⟨true, id, 0, -1, none, none, none, true⟩
          (afstreams_sd_new sample_defaults "/dev/log")).self).trace ++
      afstreams_sd_free (afstreams_sd_deinit true
        (afstreams_sd_init ⟨true, id, 0, -1, none, none, none, true⟩
          (afstreams_sd_new sample_defaults "/dev/log")).self).self =
      [Event.log_src_driver_init_method, Event.log_reader_options_init,
        Event.open_dev "/dev/log" 0, Event.g_fd_set_cloexec 0, Event.ioctl_conslog 0,
        Event.msg_error "Error in ioctl(I_STR, I_CONSLOG)", Event.close 0,
        Event.door_revoke 0, Event.close 0, Event.log_src_driver_deinit_method,
        Event.log_reader_options_destroy, Event.g_string_free "/dev/log",
        Event.log_src_driver_free] ∧
    ((afstreams_sd_init ⟨true, id, 0, -1, none, none, none, true⟩
        (afstreams_sd_new sample_defaults "/dev/log")).trace ++
      (afstreams_sd_deinit true
        (afstreams_sd_init ⟨true, id, 0, -1, none, none, none, true⟩
          (afstreams_sd_new sample_defaults "/dev/log")).self).trace ++
      afstreams_sd_free (afstreams_sd_deinit true
        (afstreams_sd_init ⟨true, id, 0, -1, none, none, none, true⟩
          (afstreams_sd_new sample_defaults "/dev/log")).self).self).count
        (Event.close 0) = 2 ∧
    ((afstreams_sd_init ⟨true, id, 0, -1, none, none, none, true⟩
        (afstreams_sd_new sample_defaults "/dev/log")).trace ++
      (afstreams_sd_deinit true
        (afstreams_sd_init ⟨true, id, 0, -1, none, none, none, true⟩
          (afstreams_sd_new sample_defaults "/dev/log")).self).trace ++
      afstreams_sd_free (afstreams_sd_deinit true
        (afstreams_sd_init ⟨true, id, 0, -1, none, none, none, true⟩
          (afstreams_sd_new sample_defaults "/dev/log")).self).self).countP
        Event.is_open = 1 := by
  decide

/-! ## Ordering of the door registration -/

theorem init_keeps_door (env : InitEnv) (self : AFStreamsSourceDriver) :
    (afstreams_sd_init env self).self.door_fd = self.door_fd ∧
    (afstreams_sd_init env self).self.door_filename = self.door_filename := by
  obtain ⟨dev, door, dfd, rd, ro, ps, pf⟩ := self
  obtain ⟨bi, oi, fd, io, gf, cr, un, pi⟩ := env
  cases bi
  · simp [afstreams_sd_init]
  · by_cases h1 : fd = -1
    · simp [afstreams_sd_init, h1]
    · by_cases h2 : io < 0
      · simp [afstreams_sd_init, h1, h2]
      · cases pf <;> cases gf <;> cases cr <;> cases un <;> cases pi <;>
          simp [afstreams_sd_init, h1, h2]

theorem init_trace_quiet (env : InitEnv) (self : AFStreamsSourceDriver) :
    (afstreams_sd_init env self).trace.countP Event.is_door_setup = 0 ∧
    (afstreams_sd_init env self).trace.countP Event.is_stat = 0 := by
  obtain ⟨dev, door, dfd, rd, ro, ps, pf⟩ := self
  obtain ⟨bi, oi, fd, io, gf, cr, un, pi⟩ := env
  cases bi
  · simp [afstreams_sd_init, Event.is_door_setup, Event.is_stat, List.countP_cons]
  · by_cases h1 : fd = -1
    · simp [afstreams_sd_init, h1, Event.is_door_setup, Event.is_stat, List.countP_cons]
    · by_cases h2 : io < 0
      · simp [afstreams_sd_init, h1, h2, Event.is_door_setup, Event.is_stat,
          List.countP_cons]
      · cases pf <;> cases gf <;> cases cr <;> cases un <;> cases pi <;> cases door <;>
          simp [afstreams_sd_init, h1, h2, Event.is_door_setup, Event.is_stat,
            List.countP_cons]

theorem init_registers_once (env : InitEnv) (self : AFStreamsSourceDriver) :
    (afstreams_sd_init env self).trace.countP Event.is_register_hook =
      (if self.door_filename.isSome ∧
          Event.log_reader_new ∈ (afstreams_sd_init env self).trace then 1 else 0) := by
  obtain ⟨dev, door, dfd, rd, ro, ps, pf⟩ := self
  obtain ⟨bi, oi, fd, io, gf, cr, un, pi⟩ := env
  cases bi
  · simp [afstreams_sd_init, Event.is_register_hook, List.countP_cons]
  · by_cases h1 : fd = -1
    · simp [afstreams_sd_init, h1, Event.is_register_hook, List.countP_cons]
    · by_cases h2 : io < 0
      · simp [afstreams_sd_init, h1, h2, Event.is_register_hook, List.countP_cons]
      · cases pf <;> cases gf <;> cases cr <;> cases un <;> cases pi <;> cases door <;>
          simp [afstreams_sd_init, h1, h2, Event.is_register_hook, List.countP_cons]

theorem init_facts (env : InitEnv) (self : AFStreamsSourceDriver) :
    (afstreams_sd_init env self).self.door_fd = self.door_fd ∧
    (afstreams_sd_init env self).self.door_filename = self.door_filename ∧
    (afstreams_sd_init env self).trace.countP Event.is_door_setup = 0 ∧
    (afstreams_sd_init env self).trace.countP Event.is_stat = 0 ∧
    (afstreams_sd_init env self).trace.countP Event.is_register_hook =
      (if self.door_filename.isSome ∧
          Event.log_reader_new ∈ (afstreams_sd_init env self).trace then 1 else 0) :=
  ⟨(init_keeps_door env self).1, (init_keeps_door env self).2,
    (init_trace_quiet env self).1, (init_trace_quiet env self).2,
    init_registers_once env self⟩

theorem deinit_facts (b : Bool) (self : AFStreamsSourceDriver) :
    (afstreams_sd_deinit b self).self.door_fd = self.door_fd ∧
    (afstreams_sd_deinit b self).self.door_filename = self.door_filename ∧
    (afstreams_sd_deinit b self).trace.countP Event.is_door_setup = 0 ∧
    (afstreams_sd_deinit b self).trace.countP Event.is_stat = 0 := by
  obtain ⟨dev, door, dfd, rd, ro, ps, pf⟩ := self
  cases rd <;> by_cases h : dfd = -1 <;>
    simp [afstreams_sd_deinit, h, Event.is_door_setup, Event.is_stat, List.countP_cons]

theorem init_door_facts (env : DoorEnv) (self : AFStreamsSourceDriver) :
    (afstreams_init_door env self).self.door_filename = self.door_filename ∧
    (afstreams_init_door env self).trace.countP Event.is_stat = 1 := by
  obtain ⟨st, cr, dc, fa⟩ := env
  obtain ⟨dev, door, dfd, rd, ro, ps, pf⟩ := self
  by_cases h1 : st = -1 <;> by_cases h2 : cr = -1 <;> by_cases h3 : dc = -1 <;>
    by_cases h4 : fa = -1 <;>
    simp [afstreams_init_door, h1, h2, h3, h4, Event.is_stat, List.countP_cons]

theorem run_hooks_facts : ∀ (n : Nat) (envs : Nat → DoorEnv) (d : AFStreamsSourceDriver),
    (run_hooks n envs d).self.door_filename = d.door_filename ∧
    (run_hooks n envs d).trace.countP Event.is_stat = n := by
  intro n
  induction n with
  | zero => intro envs d; exact ⟨rfl, rfl⟩
  | succ k ih =>
    intro envs d
    obtain ⟨h1, h2⟩ := init_door_facts (envs 0) d
    obtain ⟨h3, h4⟩ := ih (fun i => envs (i + 1)) (afstreams_init_door (envs 0) d).self
    constructor
    · show (run_hooks k _ (afstreams_init_door (envs 0) d).self).self.door_filename = _
      rw [h3, h1]
    · show ((afstreams_init_door (envs 0) d).trace ++
        (run_hooks k _ (afstreams_init_door (envs 0) d).self).trace).countP Event.is_stat = _
      rw [List.countP_append, h2, h4]
      omega

theorem mem_takeWhile_append {α : Type} (p : α → Bool) (e : α) :
    ∀ (l₁ l₂ : List α), e ∈ (l₁ ++ l₂).takeWhile p →
      e ∈ l₁.takeWhile p ∨ e ∈ l₂.takeWhile p := by
  intro l₁
  induction l₁ with
  | nil => intro l₂ h; exact Or.inr h
  | cons a l ih =>
    intro l₂ h
    rw [List.cons_append, List.takeWhile_cons] at h
    rw [List.takeWhile_cons]
    cases hp : p a
    · rw [hp] at h
      simp at h
    · rw [hp] at h
      simp only [if_true] at h ⊢
      rcases List.mem_cons.1 h with h' | h'
      · exact Or.inl (List.mem_cons.2 (Or.inl h'))
      · rcases ih l₂ h' with h'' | h''
        · exact Or.inl (List.mem_cons.2 (Or.inr h''))
        · exact Or.inr h''

theorem door_after_hook_append_quiet (t t' : List Event) (h : door_after_hook t)
    (hq : t'.countP Event.is_door_setup = 0) : door_after_hook (t ++ t') := by
  intro e he
  rcases mem_takeWhile_append _ e t t' he with h1 | h1
  · exact h e h1
  · have hm : e ∈ t' := (List.takeWhile_sublist _).subset h1
    have := List.countP_eq_zero.1 hq e hm
    simpa using this

theorem door_after_hook_append_marker (t t' : List Event) (h : door_after_hook t) :
    door_after_hook (t ++ Event.run_post_daemonized :: t') := by
  intro e he
  rcases mem_takeWhile_append _ e t _ he with h1 | h1
  · exact h e h1
  · simp [List.takeWhile_cons] at h1

theorem step_door_after_hook (s : System) (st : Step) (h : door_after_hook s.trace) :
    door_after_hook (step s st).trace := by
  cases st with
  | init env => exact door_after_hook_append_quiet _ _ h (init_facts env s.drv).2.2.1
  | hook_fire envs => exact door_after_hook_append_marker _ _ h
  | deinit b => exact door_after_hook_append_quiet _ _ h (deinit_facts b s.drv).2.2.1

theorem run_door_after_hook : ∀ (steps : List Step) (s : System),
    door_after_hook s.trace → door_after_hook (run s steps).trace := by
  intro steps
  induction steps with
  | nil => intro s h; exact h
  | cons st rest ih => intro s h; exact ih (step s st) (step_door_after_hook s st h)

theorem step_hook_budget (door : Option String) (n : Nat) (s : System) (st : Step)
    (h : hook_budget door n s) :
    hook_budget door (n + count_init [st]) (step s st) := by
  obtain ⟨hd, hle, hpos⟩ := h
  cases st with
  | init env =>
    obtain ⟨_, f2, _, f4, f5⟩ := init_facts env s.drv
    have hreg : (afstreams_sd_init env s.drv).trace.countP Event.is_register_hook ≤ 1 := by
      rw [f5]; split_ifs <;> omega
    have hreg' : 0 < (afstreams_sd_init env s.drv).trace.countP Event.is_register_hook →
        door.isSome = true := by
      rw [f5]
      split_ifs with c
      · intro _; rw [← hd]; exact c.1
      · intro h0; omega
    refine ⟨by show (afstreams_sd_init env s.drv).self.door_filename = door; rw [f2, hd], ?_, ?_⟩
    · show s.pending + (afstreams_sd_init env s.drv).trace.countP Event.is_register_hook +
        (s.trace ++ (afstreams_sd_init env s.drv).trace).countP Event.is_stat ≤ n + 1
      rw [List.countP_append, f4]
      omega
    · show 0 < s.pending + (afstreams_sd_init env s.drv).trace.countP
          Event.is_register_hook +
        (s.trace ++ (afstreams_sd_init env s.drv).trace).countP Event.is_stat → _
      rw [List.countP_append, f4]
      intro h0
      by_cases hc : 0 < (afstreams_sd_init env s.drv).trace.countP Event.is_register_hook
      · exact hreg' hc
      · exact hpos (by omega)
  | hook_fire envs =>
    obtain ⟨g1, g2⟩ := run_hooks_facts s.pending envs s.drv
    have hcount : (s.trace ++ Event.run_post_daemonized ::
        (run_hooks s.pending envs s.drv).trace).countP Event.is_stat =
        s.trace.countP Event.is_stat + s.pending := by
      rw [List.countP_append, List.countP_cons, g2]
      simp [Event.is_stat]
    refine ⟨by show (run_hooks s.pending envs s.drv).self.door_filename = door; rw [g1, hd],
      ?_, ?_⟩
    · show 0 + (s.trace ++ Event.run_post_daemonized ::
        (run_hooks s.pending envs s.drv).trace).countP Event.is_stat ≤ n + 0
      rw [hcount]; omega
    · show 0 < 0 + (s.trace ++ Event.run_post_daemonized ::
        (run_hooks s.pending envs s.drv).trace).countP Event.is_stat → _
      rw [hcount]
      intro h0
      exact hpos (by omega)
  | deinit b =>
    obtain ⟨_, d2, _, d4⟩ := deinit_facts b s.drv
    refine ⟨by show (afstreams_sd_deinit b s.drv).self.door_filename = door; rw [d2, hd],
      ?_, ?_⟩
    · show s.pending + (s.trace ++ (afstreams_sd_deinit b s.drv).trace).countP Event.is_stat
        ≤ n + 0
      rw [List.countP_append, d4]; omega
    · show 0 < s.pending + (s.trace ++ (afstreams_sd_deinit b s.drv).trace).countP
        Event.is_stat → _
      rw [List.countP_append, d4]
      intro h0
      exact hpos (by omega)

theorem count_init_cons (st : Step) (rest : List Step) :
    count_init (st :: rest) = count_init [st] + count_init rest := by
  cases st <;> simp [count_init]
  omega

theorem run_hook_budget (door : Option String) : ∀ (steps : List Step) (n : Nat) (s : System),
    hook_budget door n s → hook_budget door (n + count_init steps) (run s steps) := by
  intro steps
  induction steps with
  | nil => intro n s h; exact h
  | cons st rest ih =>
    intro n s h
    have h1 := ih (n + count_init [st]) (step s st) (step_hook_budget door n s st h)
    rw [count_init_cons, ← Nat.add_assoc]
    exact h1

/-- C8: `afstreams_sd_init` never creates or attaches the door: it leaves `door_fd`
as it was and calls neither `door_create` nor `fattach`; it registers the hook
exactly once when a door path is configured and the reader has been
constructed, and not at all otherwise.  Hence in every run of `init`,
hook-fire and `deinit` steps from a fresh registry, no `door_create` or
`fattach` precedes the first firing of the post-daemonization hook, the
registrar runs at most as many times as `init` was called, and it runs only
for a driver with a door path. -/
theorem door_registration_is_deferred :
    (∀ (env : InitEnv) (self : AFStreamsSourceDriver),
      (afstreams_sd_init env self).self.door_fd = self.door_fd ∧
      (∀ e ∈ (afstreams_sd_init env self).trace, e.is_door_setup = false) ∧
      (afstreams_sd_init env self).trace.countP Event.is_register_hook =
        (if self.door_filename.isSome ∧
            Event.log_reader_new ∈ (afstreams_sd_init env self).trace then 1 else 0)) ∧
    (∀ (d : AFStreamsSourceDriver) (steps : List Step),
      (∀ e ∈ (run (System.start d) steps).trace.takeWhile
          (fun e => e != Event.run_post_daemonized), e.is_door_setup = false) ∧
      (run (System.start d) steps).trace.countP Event.is_stat ≤ count_init steps ∧
      (0 < (run (System.start d) steps).trace.countP Event.is_stat →
        d.door_filename.isSome = true)) := by
  constructor
  · intro env self
    obtain ⟨f1, _, f3, _, f5⟩ := init_facts env self
    refine ⟨f1, ?_, f5⟩
    intro e he
    have := List.countP_eq_zero.1 f3 e he
    simpa using this
  · intro d steps
    have hstart : hook_budget d.door_filename 0 (System.start d) :=
      ⟨rfl, Nat.le_refl _, fun h => absurd h (Nat.lt_irrefl 0)⟩
    obtain ⟨_, hle, hpos⟩ := run_hook_budget d.door_filename steps 0 (System.start d) hstart
    refine ⟨run_door_after_hook steps (System.start d) ?_, by omega, ?_⟩
    · intro e he
      simp [System.start] at he
    · intro h0
      exact hpos (by omega)

end AFStreams
